import Mathlib

/-!
Shallow embedding of `src/app/modules/angular-slickgrid/services/sort.service.ts`
(class `SortService`) and verification of its specification.

The service coordinates local (in-memory) and backend (remote) sorting for a
SlickGrid instance: it reconciles sort gestures and sort presets into a
canonical "current sorters" state, applies a multi-spec comparator to an
external data view, drives the backend request/response hook pipeline, and
broadcasts sorter-state changes on a single subject.

External effects (data-view sort, grid invalidate/render, subject emissions,
backend hooks) are modelled as explicit event traces; the mutable field
`_currentLocalSorters` is modelled by explicit state passing.
-/

namespace SortServiceModel

/-- Modelled from the spec: the `FieldType` enum lives in `models/index.ts`,
which is not under `src/`; per the spec the comparator distinguishes
numeric, date, string-lexicographic and boolean orderings, with `string`
as the default type. -/
inductive FieldType where
  | string
  | number
  | date
  | boolean
deriving DecidableEq, Repr

/-- Modelled from the spec: the `SortDirection` string-enum value `ASC`
(from `models/index.ts`, not under `src/`). -/
def SortDirectionASC : String := "ASC"

/-- Modelled from the spec: the `SortDirection` string-enum value `DESC`
(from `models/index.ts`, not under `src/`). -/
def SortDirectionDESC : String := "DESC"

/-- A cell value of a row; rows are untyped keyed records in the source,
compared only through the resolved sort field. `undef` stands for a missing
(JS `undefined`) field. -/
inductive Value where
  | num (n : Int)
  | str (s : String)
  | bool (b : Bool)
  | undef
deriving DecidableEq, Repr

/-- Three-way comparison on integers, yielding -1, 0 or 1. -/
def cmpInt (a b : Int) : Int :=
  if a < b then -1 else if b < a then 1 else 0

/-- Three-way lexicographic comparison on strings. -/
def cmpStr (a b : String) : Int :=
  if a < b then -1 else if b < a then 1 else 0

/-- Three-way comparison on booleans (`false < true`). -/
def cmpBool (a b : Bool) : Int :=
  if a = b then 0 else if a = false then -1 else 1

/-- Modelled from the spec: the type-specific ordering rules used by
`sortByFieldType` (from `sorters/sorterUtilities.ts`, not under `src/`):
numeric for `number`, numeric timestamps for `date`, lexicographic for
`string`, and boolean ordering for `boolean`; values of an unexpected shape
compare equal. -/
def typeCompare : FieldType → Value → Value → Int
  | FieldType.number, Value.num a, Value.num b => cmpInt a b
  | FieldType.date, Value.num a, Value.num b => cmpInt a b
  | FieldType.string, Value.str a, Value.str b => cmpStr a b
  | FieldType.boolean, Value.bool a, Value.bool b => cmpBool a b
  | _, _, _ => 0

/-- Modelled from the spec: `sortByFieldType` (imported from
`sorters/sorterUtilities.ts`, which is not under `src/`) compares the two
values by the type-specific ordering and multiplies by the sort direction
(+1 ascending, -1 descending). -/
def sortByFieldType (value1 value2 : Value) (fieldType : FieldType) (sortDirection : Int) : Int :=
  sortDirection * typeCompare fieldType value1 value2

/-- A column definition (`Column` from the models), restricted to the fields
the sort service reads: `id`, the base `field`, the optional `queryField` and
`queryFieldFilter` overrides, and the optional declared value `type`. -/
structure Column where
  id : String
  field : String
  queryField : Option String := none
  queryFieldFilter : Option String := none
  type : Option FieldType := none
deriving DecidableEq, Repr

/-- A `CurrentSorter`: a (columnId, direction) pair; `direction` is one of the
`SortDirection` strings. -/
structure CurrentSorter where
  columnId : String
  direction : String
deriving DecidableEq, Repr

/-- A `SortChanged` entry: one element of the sort-specification list handed
to `onLocalSortChanged`. Gesture entries carry no `columnId`; preset entries
do. `sortCol` is the bound column, absent when the gesture did not reference
a real column (JS `undefined`). -/
structure SortChanged where
  columnId : Option String := none
  sortAsc : Bool
  sortCol : Option Column
deriving DecidableEq, Repr

/-- A data row: a keyed record, modelled as an association list. -/
abbrev Row : Type := List (String × Value)

/-- Reading `dataRow[sortField]`: first binding for the key, JS `undefined`
(here `Value.undef`) when the key is missing. -/
def getField (row : Row) (key : String) : Value :=
  match row.find? (fun kv => kv.1 == key) with
  | some kv => kv.2
  | none => Value.undef

/-- The field-resolution chain from line 153 of the source:
`sortCol.queryField || sortCol.queryFieldFilter || sortCol.field`.
JS `||` also skips an empty string (falsy), which is modelled explicitly. -/
def resolveSortField (c : Column) : String :=
  match c.queryField with
  | some s => if s = "" then
      (match c.queryFieldFilter with
       | some t => if t = "" then c.field else t
       | none => c.field)
    else s
  | none =>
    match c.queryFieldFilter with
    | some t => if t = "" then c.field else t
    | none => c.field

/-- The comparator closure passed to `dataView.sort` in `onLocalSortChanged`
(lines 148-161): walk the sort specs in order; at the first spec whose
`sortCol` is present, compare the resolved field values by the column's type
(default `string`) with direction +1 or -1 and return immediately; return 0
after the loop. -/
def localCompare (sortColumns : List SortChanged) (dataRow1 dataRow2 : Row) : Int :=
  match sortColumns with
  | [] => 0
  | columnSortObj :: rest =>
    match columnSortObj.sortCol with
    | some sortCol =>
      sortByFieldType
        (getField dataRow1 (resolveSortField sortCol))
        (getField dataRow2 (resolveSortField sortCol))
        (sortCol.type.getD FieldType.string)
        (if columnSortObj.sortAsc then 1 else -1)
    | none => localCompare rest dataRow1 dataRow2

/-- Externally visible effects of the local sort path, in call order. -/
inductive LocalEvent where
  | dataViewSort
  | invalidate
  | render
  | emitLocal
  | setSortColumns
deriving DecidableEq, Repr

/-- The payload of a SlickGrid `onSort` gesture: either a multi-column
gesture (`multiColumnSort` with `sortCols`) or a single-column gesture
(`sortAsc` and `sortCol`). -/
structure SortArgs where
  multiColumnSort : Bool
  sortCols : List SortChanged
  sortAsc : Bool
  sortCol : Option Column
deriving DecidableEq, Repr

/-- Line 78 of the source: a single-column gesture is wrapped into a
one-element array shaped like the multi-column case. -/
def normalizeGesture (args : SortArgs) : List SortChanged :=
  if args.multiColumnSort then args.sortCols
  else [{ sortAsc := args.sortAsc, sortCol := args.sortCol }]

/-- The push step of the gesture subscriber (lines 83-90): append a
`CurrentSorter` for each spec whose `sortCol` is present. -/
def gestureSorterStep (acc : List CurrentSorter) (sortColumn : SortChanged) : List CurrentSorter :=
  match sortColumn.sortCol with
  | some c => acc ++ [{ columnId := c.id,
                        direction := if sortColumn.sortAsc then SortDirectionASC else SortDirectionDESC }]
  | none => acc

/-- The `onSort` subscriber of `attachLocalOnSort` (lines 75-95): normalize
the gesture, reset `_currentLocalSorters` and repopulate it, then run
`onLocalSortChanged` (data-view sort, invalidate, render) and emit with
source tag `local`. Returns the new canonical sorter state and the event
trace. -/
def localOnSortGesture (_currentLocalSorters : List CurrentSorter) (args : SortArgs) :
    List CurrentSorter × List LocalEvent :=
  let sortColumns := normalizeGesture args
  let newSorters := sortColumns.foldl gestureSorterStep []
  (newSorters, [LocalEvent.dataViewSort, LocalEvent.invalidate, LocalEvent.render, LocalEvent.emitLocal])

/-- The `presets` object of the grid options: an optional list of sorter
presets. -/
structure GridPresets where
  sorters : Option (List CurrentSorter) := none
deriving DecidableEq, Repr

/-- A backend service (`backendApi.service`): only the operation the sort
service reads is modelled. `getCurrentSorters` is `none` when the service
lacks that operation; otherwise it holds the list the call returns. -/
structure BackendService where
  getCurrentSorters : Option (List CurrentSorter) := none
deriving DecidableEq, Repr

/-- A backend API contract (`backendServiceApi` / `onBackendEventApi`):
`hasProcess` records whether a `process` function is present; the three hook
flags record whether the optional hooks are configured. -/
structure BackendApi where
  hasProcess : Bool
  service : Option BackendService := none
  preProcess : Bool := false
  internalPostProcess : Bool := false
  postProcess : Bool := false
deriving DecidableEq, Repr

/-- Grid options (`GridOption`), restricted to the fields the sort service
reads. -/
structure GridOption where
  backendServiceApi : Option BackendApi := none
  onBackendEventApi : Option BackendApi := none
  presets : Option GridPresets := none
deriving DecidableEq, Repr

/-- JS `String.prototype.toUpperCase`, modelled as per-character
uppercasing of the string's characters. -/
def strToUpper (s : String) : String := String.mk (s.data.map Char.toUpper)

/-- The push step of the preset loop (lines 122-137): look up a preset for
the column by `columnId`; when found, append a `SortChanged` (direction
normalized via uppercase comparison with `ASC`) and a `CurrentSorter`
(direction stored uppercased). -/
def presetStep (sorters : List CurrentSorter) (acc : List SortChanged × List CurrentSorter)
    (columnDef : Column) : List SortChanged × List CurrentSorter :=
  match sorters.find? (fun currentSorter => currentSorter.columnId == columnDef.id) with
  | some columnPreset =>
    (acc.1 ++ [{ columnId := some columnDef.id,
                 sortAsc := strToUpper columnPreset.direction == SortDirectionASC,
                 sortCol := some columnDef }],
     acc.2 ++ [{ columnId := columnDef.id, direction := strToUpper columnPreset.direction }])
  | none => acc

/-- The preset loop of `loadLocalPresets` (lines 117-138): iterate the column
definitions in their declared order, starting from empty `sortCols` and a
reset `_currentLocalSorters`. -/
def presetFold (columnDefinitions : List Column) (sorters : List CurrentSorter) :
    List SortChanged × List CurrentSorter :=
  columnDefinitions.foldl (presetStep sorters) ([], [])

/-- The `SortChanged` a column contributes under the given presets, if any
(the body of the push at lines 126-130). -/
def presetSortCol (sorters : List CurrentSorter) (columnDef : Column) : Option SortChanged :=
  (sorters.find? (fun currentSorter => currentSorter.columnId == columnDef.id)).map
    (fun columnPreset =>
      { columnId := some columnDef.id,
        sortAsc := strToUpper columnPreset.direction == SortDirectionASC,
        sortCol := some columnDef })

/-- The `CurrentSorter` a column contributes under the given presets, if any
(the body of the push at lines 133-136). -/
def presetCurrSorter (sorters : List CurrentSorter) (columnDef : Column) : Option CurrentSorter :=
  (sorters.find? (fun currentSorter => currentSorter.columnId == columnDef.id)).map
    (fun columnPreset =>
      { columnId := columnDef.id, direction := strToUpper columnPreset.direction })

/-- `loadLocalPresets` (lines 116-145): reset `_currentLocalSorters`, build
the reconciled `sortCols` when presets are configured, and when `sortCols`
is non-empty run `onLocalSortChanged` (data-view sort, invalidate, render)
followed by `grid.setSortColumns`. Returns the new canonical sorter state,
the reconciled `sortCols` list and the event trace. -/
def loadLocalPresets (gridOptions : Option GridOption) (columnDefinitions : List Column) :
    List CurrentSorter × List SortChanged × List LocalEvent :=
  match gridOptions with
  | none => ([], [], [])
  | some go =>
    match go.presets with
    | none => ([], [], [])
    | some pre =>
      match pre.sorters with
      | none => ([], [], [])
      | some sorters =>
        let folded := presetFold columnDefinitions sorters
        if folded.1.length > 0 then
          (folded.2, folded.1,
           [LocalEvent.dataViewSort, LocalEvent.invalidate, LocalEvent.render,
            LocalEvent.setSortColumns])
        else
          (folded.2, folded.1, [])

/-- The payload of a `dataView.onRowCountChanged` notification. -/
structure RowCountArgs where
  previous : Nat
  current : Nat
deriving DecidableEq, Repr

/-- The row-count subscriber of `attachLocalOnSort` (lines 97-102): invoke
`loadLocalPresets` whenever the new row count is positive. The second
component counts the invocations of `loadLocalPresets` this step performs. -/
def rowCountStep (gridOptions : Option GridOption) (columnDefinitions : List Column)
    (st : List CurrentSorter × Nat) (args : RowCountArgs) : List CurrentSorter × Nat :=
  if args.current > 0 then
    ((loadLocalPresets gridOptions columnDefinitions).1, st.2 + 1)
  else st

/-- Fold the row-count subscriber over a sequence of row-count notifications,
starting from an empty canonical sorter state, returning the final state and
the total number of `loadLocalPresets` invocations. -/
def runRowCountEvents (gridOptions : Option GridOption) (columnDefinitions : List Column)
    (events : List RowCountArgs) : List CurrentSorter × Nat :=
  events.foldl (rowCountStep gridOptions columnDefinitions) ([], 0)

/-- Externally visible steps of the backend sort path, in call order. -/
inductive BEvent where
  | preProcess
  | buildQuery
  | broadcastRemote
  | processCall
  | awaitResolved
  | internalPostProcess
  | postProcess
deriving DecidableEq, Repr

/-- The hook pipeline of `attachBackendOnSortSubscribe` after validation
succeeds (lines 42-61): optional `preProcess`, build the query via
`service.onSortChanged`, broadcast with source tag `remote`, call `process`
and await it; once the result resolves, run `internalPostProcess` when it is
configured and the result is truthy, then `postProcess` when configured. -/
def runBackendHooks (backendApi : BackendApi) (resultTruthy : Bool) : List BEvent :=
  (if backendApi.preProcess then [BEvent.preProcess] else []) ++
  [BEvent.buildQuery, BEvent.broadcastRemote, BEvent.processCall, BEvent.awaitResolved] ++
  (if resultTruthy && backendApi.internalPostProcess then [BEvent.internalPostProcess] else []) ++
  (if backendApi.postProcess then [BEvent.postProcess] else [])

/-- The grid handle reachable from a backend gesture payload: only
`getOptions()` is read (its result may be JS-falsy, modelled as `none`). -/
structure BackendGrid where
  getOptions : Option GridOption := none
deriving DecidableEq, Repr

/-- The `args` payload of a backend `onSort` notification; `grid` is absent
when the payload is malformed. -/
structure BackendArgs where
  grid : Option BackendGrid := none
deriving DecidableEq, Repr

/-- The validation at line 39: a backend API is usable when it exists and has
both a `process` function and a `service` object. -/
def validBackendApi : Option BackendApi → Bool
  | some backendApi => backendApi.hasProcess && backendApi.service.isSome
  | none => false

/-- The error message thrown at line 34 for a malformed payload. -/
def errArgsMsg : String :=
  "Something went wrong when trying to attach the \"attachBackendOnSortSubscribe(event, args)\" function, it seems that \"args\" is not populated correctly"

/-- The error message thrown at line 40 for a missing backend contract. -/
def errContractMsg : String :=
  "BackendServiceApi requires at least a \"process\" function and a \"service\" defined"

/-- Outcome of one `attachBackendOnSortSubscribe` invocation: the canonical
local sorter state afterwards, the trace of hook/broadcast events, and the
thrown error if any. -/
structure BackendOutcome where
  sorters : List CurrentSorter
  events : List BEvent
  error : Option String
deriving DecidableEq, Repr

/-- `attachBackendOnSortSubscribe` (lines 32-62): reject a malformed payload
(`args` or `args.grid` missing) and a missing backend contract (no
`backendServiceApi`/`onBackendEventApi`, or one lacking `process` or
`service`); otherwise run the hook pipeline. `resultTruthy` is the
truthiness of the awaited `process` result. The canonical local sorter state
is never touched on this path. -/
def backendSubscribe (currentLocalSorters : List CurrentSorter) (args : Option BackendArgs)
    (resultTruthy : Bool) : BackendOutcome :=
  match args with
  | none => ⟨currentLocalSorters, [], some errArgsMsg⟩
  | some a =>
    match a.grid with
    | none => ⟨currentLocalSorters, [], some errArgsMsg⟩
    | some grid =>
      let gridOptions := grid.getOptions.getD {}
      let backendApi := gridOptions.backendServiceApi <|> gridOptions.onBackendEventApi
      if validBackendApi backendApi then
        match backendApi with
        | some api => ⟨currentLocalSorters, runBackendHooks api resultTruthy, none⟩
        | none => ⟨currentLocalSorters, [], some errContractMsg⟩
      else
        ⟨currentLocalSorters, [], some errContractMsg⟩

/-- The source tag of an emission. -/
inductive Sender where
  | loc
  | remote
deriving DecidableEq, Repr

/-- `emitSortChanged` (lines 181-192): for `remote`, emit only when the
stored grid options carry a `backendServiceApi`; the payload is what the
backend service's `getCurrentSorters` returns, or `[]` when the service or
the operation is missing. For `local`, emit the current canonical local
sorter state. Returns `none` when nothing is emitted, `some payload`
otherwise. -/
def emitSortChanged (gridOptions : Option GridOption)
    (currentLocalSorters : List CurrentSorter) : Sender → Option (List CurrentSorter)
  | Sender.remote =>
    match gridOptions with
    | some go =>
      match go.backendServiceApi with
      | some api =>
        let currentSorters :=
          match api.service with
          | some backendService =>
            match backendService.getCurrentSorters with
            | some sorters => sorters
            | none => []
          | none => []
        some currentSorters
      | none => none
    | none => none
  | Sender.loc => some currentLocalSorters

/-- The `_slickSubscriber` field: present after an attach call; a present
subscriber may still lack a function-typed `unsubscribe`. -/
structure SlickSubscriberObj where
  hasUnsubscribe : Bool
deriving DecidableEq, Repr

/-- The mutable fields of `SortService` that `dispose` reads. Fresh instances
(zero attach calls) have no subscriber. -/
structure SortServiceState where
  currentLocalSorters : List CurrentSorter := []
  slickSubscriber : Option SlickSubscriberObj := none
deriving DecidableEq, Repr

/-- Effects of `dispose`, in call order. -/
inductive DisposeEvent where
  | unsubscribeSort
  | unsubscribeAllEvents
deriving DecidableEq, Repr

/-- `dispose` (lines 166-174): unsubscribe the sort subscriber only when it
exists and its `unsubscribe` is a function, then unsubscribe all handled
SlickGrid events (the event handler always exists, created at construction).
No field is mutated. -/
def dispose (st : SortServiceState) : SortServiceState × List DisposeEvent :=
  let first :=
    match st.slickSubscriber with
    | some s => if s.hasUnsubscribe then [DisposeEvent.unsubscribeSort] else []
    | none => []
  (st, first ++ [DisposeEvent.unsubscribeAllEvents])

/-- The `CurrentSorter` contributed by one normalized gesture pair, if its
column is bound. -/
def gestureSorter (sortColumn : SortChanged) : Option CurrentSorter :=
  sortColumn.sortCol.map (fun c =>
    { columnId := c.id,
      direction := if sortColumn.sortAsc then SortDirectionASC else SortDirectionDESC })

/-- Concrete column fixture: declares both query-field overrides and a base
field, with numeric type. -/
def colQ : Column :=
  { id := "c1", field := "f", queryField := some "q", queryFieldFilter := some "qf",
    type := some FieldType.number }

/-- Concrete row fixture with `q = 2`. -/
def rowQ2 : Row := [("q", Value.num 2), ("f", Value.num 9)]

/-- Concrete row fixture with `q = 5`. -/
def rowQ5 : Row := [("q", Value.num 5), ("f", Value.num 1)]

/-- Concrete sort-spec fixture whose column is unbound. -/
def scNone : SortChanged := { columnId := none, sortAsc := true, sortCol := none }

/-- Concrete gesture fixture: a multi-column gesture with a single unbound
pair. -/
def gestureUnbound : SortArgs :=
  { multiColumnSort := true, sortCols := [scNone], sortAsc := true, sortCol := none }

/-- Concrete column fixture `a`. -/
def colA : Column := { id := "a", field := "fa" }

/-- Concrete column fixture `b`. -/
def colB : Column := { id := "b", field := "fb" }

/-- Concrete column fixture `c`. -/
def colC : Column := { id := "c", field := "fc" }

/-- Concrete preset fixture: column `a`, lowercase `asc`. -/
def presetA : CurrentSorter := { columnId := "a", direction := "asc" }

/-- Concrete preset fixture: column `b`, lowercase `desc`. -/
def presetB : CurrentSorter := { columnId := "b", direction := "desc" }

/-- Concrete backend API fixture with all hooks configured and a service
that reports current sorters. -/
def apiFull : BackendApi :=
  { hasProcess := true,
    service := some { getCurrentSorters := some [{ columnId := "r", direction := "DESC" }] },
    preProcess := true, internalPostProcess := true, postProcess := true }

/-- Concrete grid-options fixture carrying `apiFull` as `backendServiceApi`. -/
def optsFull : GridOption := { backendServiceApi := some apiFull }

/-- Concrete backend API fixture with a valid contract whose service lacks
`getCurrentSorters`. -/
def apiNoGetter : BackendApi := { hasProcess := true, service := some {} }

/-- Concrete grid-options fixture configured only through the legacy
`onBackendEventApi` field. -/
def optsLegacy : GridOption := { onBackendEventApi := some apiNoGetter }

/-- Concrete grid-options fixture whose `backendServiceApi` service lacks
`getCurrentSorters`. -/
def optsNoGetter : GridOption := { backendServiceApi := some apiNoGetter }

lemma foldl_gestureSorterStep (l : List SortChanged) (acc : List CurrentSorter) :
    l.foldl gestureSorterStep acc = acc ++ l.filterMap gestureSorter := by
  induction l generalizing acc with
  | nil => simp
  | cons x xs ih =>
    cases hx : x.sortCol with
    | none =>
      simp only [List.foldl_cons, List.filterMap_cons]
      rw [show gestureSorterStep acc x = acc from by simp [gestureSorterStep, hx]]
      simp [gestureSorter, hx, ih]
    | some c =>
      simp only [List.foldl_cons, List.filterMap_cons]
      rw [show gestureSorterStep acc x =
            acc ++ [{ columnId := c.id,
                      direction := if x.sortAsc then SortDirectionASC else SortDirectionDESC }]
          from by simp [gestureSorterStep, hx]]
      simp [gestureSorter, hx, ih]

lemma localOnSortGesture_fst (cur : List CurrentSorter) (args : SortArgs) :
    (localOnSortGesture cur args).1 = (normalizeGesture args).filterMap gestureSorter := by
  simp [localOnSortGesture, foldl_gestureSorterStep]

/-- C5: a single-column gesture is normalized into a one-element sequence of
the multi-column shape, and the canonical sorter state after a local gesture
is exactly one `CurrentSorter` per normalized pair whose column is present,
in gesture order, with direction `ASC` iff the pair is ascending — starting
from a reset (the prior state is irrelevant). -/
theorem localGesture_normalization :
    (∀ (scs : List SortChanged) (asc : Bool) (col : Option Column),
        normalizeGesture { multiColumnSort := false, sortCols := scs, sortAsc := asc, sortCol := col } =
          [{ columnId := none, sortAsc := asc, sortCol := col }]) ∧
    (∀ (cur : List CurrentSorter) (args : SortArgs),
        (localOnSortGesture cur args).1 = (normalizeGesture args).filterMap gestureSorter) :=
  ⟨fun _ asc col => by simp [normalizeGesture], localOnSortGesture_fst⟩

lemma localCompare_eq_zero (l : List SortChanged) (dataRow1 dataRow2 : Row)
    (h : ∀ sc ∈ l, sc.sortCol = none) : localCompare l dataRow1 dataRow2 = 0 := by
  induction l with
  | nil => simp [localCompare]
  | cons x xs ih =>
    have hx : x.sortCol = none := h x (List.mem_cons_self x xs)
    rw [localCompare, hx]
    exact ih (fun sc hsc => h sc (List.mem_cons_of_mem x hsc))

/-- C8: a local sort gesture never raises; when no normalized pair is bound
to a real column the canonical sorter state ends empty and the comparator
returns 0 on every row pair, and in every case the data view is sorted,
invalidated and re-rendered. -/
theorem localGesture_degraded (cur : List CurrentSorter) (args : SortArgs)
    (h : ∀ sc ∈ normalizeGesture args, sc.sortCol = none) :
    (localOnSortGesture cur args).1 = [] ∧
    (∀ dataRow1 dataRow2 : Row, localCompare (normalizeGesture args) dataRow1 dataRow2 = 0) ∧
    (localOnSortGesture cur args).2 =
      [LocalEvent.dataViewSort, LocalEvent.invalidate, LocalEvent.render, LocalEvent.emitLocal] := by
  refine ⟨?_, fun r1 r2 => localCompare_eq_zero _ r1 r2 h, by simp [localOnSortGesture]⟩
  rw [localOnSortGesture_fst]
  rw [List.filterMap_eq_nil_iff]
  intro sc hsc
  simp [gestureSorter, h sc hsc]

/-- Witness for C8 at a concrete unbound gesture. -/
theorem localGesture_degraded_witness :
    (localOnSortGesture [{ columnId := "a", direction := "ASC" }] gestureUnbound).1 = [] ∧
    localCompare (normalizeGesture gestureUnbound) rowQ2 rowQ5 = 0 ∧
    (localOnSortGesture [{ columnId := "a", direction := "ASC" }] gestureUnbound).2 =
      [LocalEvent.dataViewSort, LocalEvent.invalidate, LocalEvent.render, LocalEvent.emitLocal] := by
  have h := localGesture_degraded [{ columnId := "a", direction := "ASC" }] gestureUnbound
    (by decide)
  exact ⟨h.1, h.2.1 rowQ2 rowQ5, h.2.2⟩

/-- C2: the comparator returns, at the first sort spec whose column is
present, the type-specific comparison (default type: string) of the two
rows' values at the field resolved through `queryField`, then
`queryFieldFilter`, then the base `field`, multiplied by +1 for ascending
and -1 for descending — regardless of any later specs; and it returns 0
when no spec has a resolvable column. -/
theorem localCompare_first_resolvable :
    (∀ (pre : List SortChanged) (sc : SortChanged) (post : List SortChanged)
        (dataRow1 dataRow2 : Row) (c : Column),
        (∀ x ∈ pre, x.sortCol = none) → sc.sortCol = some c →
        localCompare (pre ++ sc :: post) dataRow1 dataRow2 =
          (if sc.sortAsc then 1 else -1) *
            typeCompare (c.type.getD FieldType.string)
              (getField dataRow1 (resolveSortField c))
              (getField dataRow2 (resolveSortField c))) ∧
    (∀ (l : List SortChanged) (dataRow1 dataRow2 : Row),
        (∀ x ∈ l, x.sortCol = none) → localCompare l dataRow1 dataRow2 = 0) := by
  constructor
  · intro pre sc post dataRow1 dataRow2 c hpre hsc
    induction pre with
    | nil => simp [localCompare, hsc, sortByFieldType]
    | cons x xs ih =>
      have hx : x.sortCol = none := hpre x (List.mem_cons_self x xs)
      rw [List.cons_append, localCompare, hx]
      exact ih (fun y hy => hpre y (List.mem_cons_of_mem x hy))
  · exact localCompare_eq_zero

/-- Witness for C2: the first bound spec (ascending, numeric, `queryField`
override `q`) decides the comparison of `q = 2` against `q = 5`; a spec
list with no bound column compares to 0. -/
theorem localCompare_first_resolvable_witness :
    localCompare [scNone, { columnId := none, sortAsc := true, sortCol := some colQ },
        { columnId := none, sortAsc := false, sortCol := some colQ }] rowQ2 rowQ5 = -1 ∧
    localCompare [scNone] rowQ2 rowQ5 = 0 := by
  constructor
  · have h := localCompare_first_resolvable.1 [scNone]
      { columnId := none, sortAsc := true, sortCol := some colQ }
      [{ columnId := none, sortAsc := false, sortCol := some colQ }]
      rowQ2 rowQ5 colQ (by decide) rfl
    simp only [List.singleton_append] at h
    rw [h]
    decide
  · exact localCompare_first_resolvable.2 [scNone] rowQ2 rowQ5 (by decide)

lemma foldl_presetStep (sorters : List CurrentSorter) (cols : List Column)
    (acc : List SortChanged × List CurrentSorter) :
    cols.foldl (presetStep sorters) acc =
      (acc.1 ++ cols.filterMap (presetSortCol sorters),
       acc.2 ++ cols.filterMap (presetCurrSorter sorters)) := by
  induction cols generalizing acc with
  | nil => simp
  | cons c cs ih =>
    rw [List.foldl_cons, ih]
    cases hf : sorters.find? (fun currentSorter => currentSorter.columnId == c.id) with
    | none => simp [presetStep, hf, presetSortCol, presetCurrSorter]
    | some p => simp [presetStep, hf, presetSortCol, presetCurrSorter]

lemma find?_eq_some_of_unique {α : Type} (p : α → Bool) (l : List α) (a : α)
    (ha : a ∈ l) (hpa : p a = true) (huniq : ∀ b ∈ l, p b = true → b = a) :
    l.find? p = some a := by
  induction l with
  | nil => exact absurd ha (List.not_mem_nil a)
  | cons x xs ih =>
    by_cases hx : p x = true
    · rw [List.find?_cons_of_pos _ hx, huniq x (List.mem_cons_self x xs) hx]
    · rw [List.find?_cons_of_neg _ (by simpa using hx)]
      have ha' : a ∈ xs := by
        rcases List.mem_cons.mp ha with h | h
        · exact absurd (h ▸ hpa) hx
        · exact h
      exact ih ha' (fun b hb hpb => huniq b (List.mem_cons_of_mem x hb) hpb)

lemma find?_perm_of_unique_key (p1 p2 : List CurrentSorter) (hperm : p1.Perm p2)
    (hnd : (p1.map CurrentSorter.columnId).Nodup) (cid : String) :
    p1.find? (fun currentSorter => currentSorter.columnId == cid) =
      p2.find? (fun currentSorter => currentSorter.columnId == cid) := by
  have hinj : ∀ a ∈ p1, ∀ b ∈ p1, a.columnId = b.columnId → a = b := by
    intro a ha b hb hab
    exact List.inj_on_of_nodup_map hnd ha hb hab
  cases hf : p1.find? (fun currentSorter => currentSorter.columnId == cid) with
  | none =>
    symm
    rw [List.find?_eq_none] at hf ⊢
    exact fun x hx => hf x (hperm.mem_iff.mpr hx)
  | some a =>
    have hpa : (fun currentSorter => currentSorter.columnId == cid) a = true :=
      List.find?_some (p := fun currentSorter : CurrentSorter => currentSorter.columnId == cid) hf
    have hmem : a ∈ p1 := List.mem_of_find?_eq_some hf
    symm
    refine find?_eq_some_of_unique _ p2 a (hperm.mem_iff.mp hmem) hpa ?_
    intro b hb hpb
    exact hinj b (hperm.mem_iff.mpr hb) a hmem
      (by rw [eq_of_beq hpb, eq_of_beq hpa])

/-- C3: the reconciled sort-specification list built by `loadLocalPresets`
is the column-definition order restricted to columns with a matching preset
(matched by `columnId`, direction uppercased and ascending iff the
uppercased direction equals `ASC`; unmatched columns skipped), and it does
not depend on the order in which the presets were supplied. -/
theorem loadLocalPresets_reconcile (cols : List Column) (p1 p2 : List CurrentSorter)
    (hperm : p1.Perm p2) (hnd : (p1.map CurrentSorter.columnId).Nodup) :
    presetFold cols p1 =
      (cols.filterMap (presetSortCol p1), cols.filterMap (presetCurrSorter p1)) ∧
    presetFold cols p1 = presetFold cols p2 ∧
    (loadLocalPresets (some { presets := some { sorters := some p1 } }) cols).2.1 =
      cols.filterMap (presetSortCol p1) := by
  have hfold : presetFold cols p1 =
      (cols.filterMap (presetSortCol p1), cols.filterMap (presetCurrSorter p1)) := by
    simp [presetFold, foldl_presetStep]
  refine ⟨hfold, ?_, ?_⟩
  · have e1 : presetSortCol p1 = presetSortCol p2 := funext fun c => by
      unfold presetSortCol
      rw [find?_perm_of_unique_key p1 p2 hperm hnd c.id]
    have e2 : presetCurrSorter p1 = presetCurrSorter p2 := funext fun c => by
      unfold presetCurrSorter
      rw [find?_perm_of_unique_key p1 p2 hperm hnd c.id]
    have hfold2 : presetFold cols p2 =
        (cols.filterMap (presetSortCol p2), cols.filterMap (presetCurrSorter p2)) := by
      simp [presetFold, foldl_presetStep]
    rw [hfold, hfold2, e1, e2]
  · simp only [loadLocalPresets]
    split
    · rw [hfold]
    · rw [hfold]

/-- Witness for C3: definitions `[a, b, c]` with presets supplied as
`[b: desc, a: asc]` reconcile to `[a ASC, b DESC]` (column order, normalized
directions), identically to the permuted preset list. -/
theorem loadLocalPresets_reconcile_witness :
    presetFold [colA, colB, colC] [presetB, presetA] =
      ([{ columnId := some "a", sortAsc := true, sortCol := some colA },
        { columnId := some "b", sortAsc := false, sortCol := some colB }],
       [{ columnId := "a", direction := "ASC" },
        { columnId := "b", direction := "DESC" }]) ∧
    presetFold [colA, colB, colC] [presetB, presetA] =
      presetFold [colA, colB, colC] [presetA, presetB] := by
  have h := loadLocalPresets_reconcile [colA, colB, colC] [presetB, presetA]
    [presetA, presetB] (by decide) (by decide)
  refine ⟨?_, h.2.1⟩
  rw [h.1]
  decide

lemma rowCount_foldl_count (gridOptions : Option GridOption) (cols : List Column)
    (events : List RowCountArgs) :
    ∀ acc : List CurrentSorter × Nat,
      (events.foldl (rowCountStep gridOptions cols) acc).2 =
        acc.2 + (events.filter (fun args => decide (args.current > 0))).length := by
  induction events with
  | nil => intro acc; simp
  | cons e es ih =>
    intro acc
    by_cases he : e.current > 0
    · rw [List.foldl_cons,
        show rowCountStep gridOptions cols acc e =
            ((loadLocalPresets gridOptions cols).1, acc.2 + 1) from by
          simp [rowCountStep, he],
        ih]
      simp [he]
      omega
    · rw [List.foldl_cons,
        show rowCountStep gridOptions cols acc e = acc from by simp [rowCountStep, he],
        ih]
      simp [he]

/-- Counterexample to C1 as stated: a positive→positive row-count change
(previous = 5, current = 5, so no zero→positive transition) still invokes
`loadLocalPresets`; over the sequence 0→5, 5→5 the preset auto-load runs
twice although only one zero→positive transition occurs. -/
theorem rowCount_positive_to_positive_invokes :
    (runRowCountEvents none [] [{ previous := 5, current := 5 }]).2 = 1 ∧
    (runRowCountEvents none []
      [{ previous := 0, current := 5 }, { previous := 5, current := 5 }]).2 = 2 := by
  decide

/-- C1 (amended): the row-count subscriber invokes `loadLocalPresets`
exactly once per row-count change whose new count is positive — including
positive→positive changes — and never when the new count is zero; the
previous count is not examined. -/
theorem rowCount_invocation_count (gridOptions : Option GridOption) (cols : List Column)
    (events : List RowCountArgs) :
    (runRowCountEvents gridOptions cols events).2 =
      (events.filter (fun args => decide (args.current > 0))).length := by
  rw [runRowCountEvents, rowCount_foldl_count]
  simp

/-- Counterexample to C4 as stated: with every hook configured but the
awaited `process` result resolving to a falsy value, the internal
post-process hook is never invoked, although the caller-visible
`postProcess` hook is. -/
theorem backendHooks_falsy_result :
    BEvent.internalPostProcess ∉ runBackendHooks apiFull false ∧
    BEvent.postProcess ∈ runBackendHooks apiFull false := by
  decide

/-- C4 (amended): every backend sort invocation that passes validation runs
the configured `preProcess` strictly before the remote broadcast and the
broadcast strictly before the awaited `process` result resolves; after the
await, when the result is truthy the configured `internalPostProcess` runs
strictly before the configured `postProcess`, and when the result is falsy
`internalPostProcess` is skipped while `postProcess` still runs. -/
theorem backendHooks_order (cur : List CurrentSorter) (opts : GridOption)
    (api : BackendApi) (resultTruthy : Bool)
    (hapi : opts.backendServiceApi = some api)
    (hproc : api.hasProcess = true) (hsvc : api.service.isSome = true)
    (hpre : api.preProcess = true) (hint : api.internalPostProcess = true)
    (hpost : api.postProcess = true) :
    (backendSubscribe cur (some { grid := some { getOptions := some opts } })
        resultTruthy).error = none ∧
    ((backendSubscribe cur (some { grid := some { getOptions := some opts } })
        resultTruthy).events.indexOf BEvent.preProcess <
      (backendSubscribe cur (some { grid := some { getOptions := some opts } })
        resultTruthy).events.indexOf BEvent.broadcastRemote) ∧
    ((backendSubscribe cur (some { grid := some { getOptions := some opts } })
        resultTruthy).events.indexOf BEvent.broadcastRemote <
      (backendSubscribe cur (some { grid := some { getOptions := some opts } })
        resultTruthy).events.indexOf BEvent.awaitResolved) ∧
    (resultTruthy = true →
      BEvent.internalPostProcess ∈
        (backendSubscribe cur (some { grid := some { getOptions := some opts } })
          resultTruthy).events ∧
      ((backendSubscribe cur (some { grid := some { getOptions := some opts } })
          resultTruthy).events.indexOf BEvent.internalPostProcess <
        (backendSubscribe cur (some { grid := some { getOptions := some opts } })
          resultTruthy).events.indexOf BEvent.postProcess)) ∧
    (resultTruthy = false →
      BEvent.internalPostProcess ∉
        (backendSubscribe cur (some { grid := some { getOptions := some opts } })
          resultTruthy).events ∧
      BEvent.postProcess ∈
        (backendSubscribe cur (some { grid := some { getOptions := some opts } })
          resultTruthy).events) := by
  have hbs : backendSubscribe cur (some { grid := some { getOptions := some opts } })
      resultTruthy = ⟨cur, runBackendHooks api resultTruthy, none⟩ := by
    simp [backendSubscribe, hapi, validBackendApi, hproc, hsvc]
  rw [hbs]
  cases resultTruthy with
  | false =>
    simp only [runBackendHooks, hpre, hint, hpost]
    decide
  | true =>
    simp only [runBackendHooks, hpre, hint, hpost]
    decide

/-- Witness for C4 (amended) at a fully configured backend with a truthy
result. -/
theorem backendHooks_order_witness :
    (backendSubscribe [] (some { grid := some { getOptions := some optsFull } })
        true).error = none ∧
    ((backendSubscribe [] (some { grid := some { getOptions := some optsFull } })
        true).events.indexOf BEvent.preProcess <
      (backendSubscribe [] (some { grid := some { getOptions := some optsFull } })
        true).events.indexOf BEvent.broadcastRemote) ∧
    BEvent.internalPostProcess ∈
      (backendSubscribe [] (some { grid := some { getOptions := some optsFull } })
        true).events := by
  have h := backendHooks_order [] optsFull apiFull true rfl rfl rfl rfl rfl rfl
  exact ⟨h.1, h.2.1, (h.2.2.2.1 rfl).1⟩

/-- C6: the backend sort handler fails with the descriptive payload error
when `args` or `args.grid` is missing and with the descriptive contract
error when the resolved backend API is missing or lacks `process` or
`service`; in every failure case the canonical sorter state is unchanged
and no hook or broadcast runs. -/
theorem backendSubscribe_error_paths :
    (∀ (cur : List CurrentSorter) (resultTruthy : Bool),
        backendSubscribe cur none resultTruthy = ⟨cur, [], some errArgsMsg⟩) ∧
    (∀ (cur : List CurrentSorter) (resultTruthy : Bool) (a : BackendArgs), a.grid = none →
        backendSubscribe cur (some a) resultTruthy = ⟨cur, [], some errArgsMsg⟩) ∧
    (∀ (cur : List CurrentSorter) (resultTruthy : Bool) (a : BackendArgs) (grid : BackendGrid),
        a.grid = some grid →
        validBackendApi ((grid.getOptions.getD {}).backendServiceApi <|>
          (grid.getOptions.getD {}).onBackendEventApi) = false →
        backendSubscribe cur (some a) resultTruthy = ⟨cur, [], some errContractMsg⟩) := by
  refine ⟨fun cur rt => rfl, fun cur rt a ha => ?_, fun cur rt a grid ha hv => ?_⟩
  · simp [backendSubscribe, ha]
  · simp [backendSubscribe, ha, hv]

/-- Witness for C6: a missing payload, a payload without a grid, and a grid
whose options carry no backend contract. -/
theorem backendSubscribe_error_paths_witness :
    backendSubscribe [] none true = ⟨[], [], some errArgsMsg⟩ ∧
    backendSubscribe [] (some { grid := none }) true = ⟨[], [], some errArgsMsg⟩ ∧
    backendSubscribe [] (some { grid := some { getOptions := none } }) false =
      ⟨[], [], some errContractMsg⟩ :=
  ⟨backendSubscribe_error_paths.1 [] true,
   backendSubscribe_error_paths.2.1 [] true { grid := none } rfl,
   backendSubscribe_error_paths.2.2 [] false { grid := some { getOptions := none } }
     { getOptions := none } rfl (by decide)⟩

/-- C7: a `remote` emission carries whatever the configured backend
service's `getCurrentSorters` returns (not the just-submitted gesture); a
`local` emission carries the current canonical local sorter state. -/
theorem emitSortChanged_payloads :
    (∀ (opts : GridOption) (api : BackendApi) (svc : BackendService)
        (sorters currentLocal : List CurrentSorter),
        opts.backendServiceApi = some api → api.service = some svc →
        svc.getCurrentSorters = some sorters →
        emitSortChanged (some opts) currentLocal Sender.remote = some sorters) ∧
    (∀ (gridOptions : Option GridOption) (currentLocal : List CurrentSorter),
        emitSortChanged gridOptions currentLocal Sender.loc = some currentLocal) := by
  refine ⟨fun opts api svc sorters currentLocal h1 h2 h3 => ?_, fun go currentLocal => rfl⟩
  simp [emitSortChanged, h1, h2, h3]

/-- Witness for C7: the remote payload is the service's reported sorter
list, the local payload is the canonical local state. -/
theorem emitSortChanged_payloads_witness :
    emitSortChanged (some optsFull) [{ columnId := "x", direction := "ASC" }] Sender.remote =
      some [{ columnId := "r", direction := "DESC" }] ∧
    emitSortChanged (some optsFull) [{ columnId := "x", direction := "ASC" }] Sender.loc =
      some [{ columnId := "x", direction := "ASC" }] :=
  ⟨emitSortChanged_payloads.1 optsFull apiFull
      { getCurrentSorters := some [{ columnId := "r", direction := "DESC" }] }
      [{ columnId := "r", direction := "DESC" }]
      [{ columnId := "x", direction := "ASC" }] rfl rfl rfl,
   emitSortChanged_payloads.2 (some optsFull) [{ columnId := "x", direction := "ASC" }]⟩

/-- C10: a `remote` emission is skipped entirely when the stored grid
options lack `backendServiceApi` — in particular a legacy
`onBackendEventApi`-only configuration passes the backend handler's
validation (the broadcast call happens) yet emits nothing — and when
`backendServiceApi` is present but its service lacks `getCurrentSorters`
the emission carries the empty list. -/
theorem emitRemote_requires_backendServiceApi :
    (∀ (opts : GridOption) (currentLocal : List CurrentSorter),
        opts.backendServiceApi = none →
        emitSortChanged (some opts) currentLocal Sender.remote = none) ∧
    (∀ (opts : GridOption) (api : BackendApi) (svc : BackendService)
        (currentLocal : List CurrentSorter),
        opts.backendServiceApi = some api → api.service = some svc →
        svc.getCurrentSorters = none →
        emitSortChanged (some opts) currentLocal Sender.remote = some []) ∧
    (∀ (cur : List CurrentSorter) (resultTruthy : Bool) (api : BackendApi),
        api.hasProcess = true → api.service.isSome = true →
        (backendSubscribe cur
          (some ⟨some ⟨some ⟨none, some api, none⟩⟩⟩) resultTruthy).error = none ∧
        BEvent.broadcastRemote ∈
          (backendSubscribe cur
            (some ⟨some ⟨some ⟨none, some api, none⟩⟩⟩) resultTruthy).events ∧
        (∀ currentLocal : List CurrentSorter,
          emitSortChanged (some ⟨none, some api, none⟩) currentLocal
            Sender.remote = none)) := by
  refine ⟨fun opts currentLocal h => by simp [emitSortChanged, h],
          fun opts api svc currentLocal h1 h2 h3 => by simp [emitSortChanged, h1, h2, h3],
          fun cur rt api hproc hsvc => ?_⟩
  have hbs : backendSubscribe cur
      (some ⟨some ⟨some ⟨none, some api, none⟩⟩⟩) rt =
      ⟨cur, runBackendHooks api rt, none⟩ := by
    simp [backendSubscribe, validBackendApi, hproc, hsvc]
  refine ⟨by rw [hbs], by rw [hbs]; simp [runBackendHooks], fun currentLocal => rfl⟩

/-- Witness for C10 with the legacy-only and getter-less fixtures. -/
theorem emitRemote_requires_backendServiceApi_witness :
    emitSortChanged (some optsLegacy) [] Sender.remote = none ∧
    emitSortChanged (some optsNoGetter) [] Sender.remote = some [] ∧
    (backendSubscribe [] (some { grid := some { getOptions := some optsLegacy } })
        true).error = none :=
  ⟨emitRemote_requires_backendServiceApi.1 optsLegacy [] rfl,
   emitRemote_requires_backendServiceApi.2.1 optsNoGetter apiNoGetter {} [] rfl rfl rfl,
   (emitRemote_requires_backendServiceApi.2.2 [] true apiNoGetter rfl rfl).1⟩

/-- C9: `dispose` never raises and mutates no field, is idempotent, skips a
missing or non-unsubscribable sort subscription, and is safe on a fresh
instance with zero attach calls. -/
theorem dispose_safe :
    (∀ st : SortServiceState, (dispose st).1 = st) ∧
    (∀ st : SortServiceState, dispose (dispose st).1 = dispose st) ∧
    (∀ st : SortServiceState, st.slickSubscriber = none →
        (dispose st).2 = [DisposeEvent.unsubscribeAllEvents]) ∧
    (∀ (st : SortServiceState) (s : SlickSubscriberObj), st.slickSubscriber = some s →
        s.hasUnsubscribe = false → (dispose st).2 = [DisposeEvent.unsubscribeAllEvents]) ∧
    (dispose {}).2 = [DisposeEvent.unsubscribeAllEvents] := by
  refine ⟨fun st => rfl, fun st => rfl, fun st h => by simp [dispose, h],
    fun st s h hs => by simp [dispose, h, hs], rfl⟩

/-- Witness for C9 at a fresh state and a non-unsubscribable subscriber. -/
theorem dispose_safe_witness :
    (dispose { slickSubscriber := some { hasUnsubscribe := false } }).1 =
      { slickSubscriber := some { hasUnsubscribe := false } } ∧
    (dispose {}).2 = [DisposeEvent.unsubscribeAllEvents] ∧
    (dispose { slickSubscriber := some { hasUnsubscribe := false } }).2 =
      [DisposeEvent.unsubscribeAllEvents] :=
  ⟨dispose_safe.1 { slickSubscriber := some { hasUnsubscribe := false } },
   dispose_safe.2.2.1 {} rfl,
   dispose_safe.2.2.2.1 { slickSubscriber := some { hasUnsubscribe := false } }
     { hasUnsubscribe := false } rfl rfl⟩

end SortServiceModel
